import Mathlib

/-!
# ESP32 WiFi scanner: report formatting and radio control

A shallow embedding of two revisions of the scanner firmware:

* the classic-SPP revision (`.history/src/main_20251205114129.c`), whose
  `send_scan_results` renders the scan into a 512-byte stack buffer and hands
  it to `esp_spp_write`;
* the current revision (`main/main.c`), whose `perform_wifi_scan` renders the
  scan into a caller-supplied buffer.

Bytes are natural numbers, C strings are lists of bytes, `int` values are
integers.  A store outside the destination array is undefined behaviour in C
and is a `Fault` of the embedding.
-/

namespace WifiScanner

/-! ## The C library -/

/-- The bytes of a string literal. -/
def bytes (s : String) : List Nat := s.toList.map Char.toNat

/-- The C string held in a byte array: the bytes before the first NUL
(what `%s` prints and what `strlen` measures). -/
def cstr (a : List Nat) : List Nat := a.takeWhile (fun b => b != 0)

/-- Decimal digits of a natural number, most significant first; `fuel`
bounds the number of digits produced. -/
def dec_digits : Nat → Nat → List Nat → List Nat
  | 0, _, acc => acc
  | fuel + 1, n, acc =>
    if n < 10 then (48 + n) :: acc
    else dec_digits fuel (n / 10) ((48 + n % 10) :: acc)

/-- The conversion `%d` of printf. -/
def fmt_d (v : Int) : List Nat :=
  if v < 0 then 45 :: dec_digits (v.natAbs + 1) v.natAbs []
  else dec_digits (v.natAbs + 1) v.natAbs []

/-- Right-justification in a field of width `w`, as in `%2d` and `%3d`. -/
def pad_left (w : Nat) (s : List Nat) : List Nat :=
  List.replicate (w - s.length) 32 ++ s

/-- Left-justification in a field of width `w`, as in `%-32s`. -/
def pad_right (w : Nat) (s : List Nat) : List Nat :=
  s ++ List.replicate (w - s.length) 32

/-- Conversion of an `int` to `size_t` on the 32-bit target. -/
def size_t (n : Int) : Nat := (n % 4294967296).toNat

/-- Conversion of a `size_t` to `int` on the 32-bit target. -/
def int_of_size_t (n : Nat) : Int :=
  if n % 4294967296 < 2147483648 then (n % 4294967296 : Nat)
  else (n % 4294967296 : Nat) - 4294967296

/-- Replacing the bytes of `buf` from index `off` on by `bs`. -/
def store (buf : List Nat) (off : Nat) (bs : List Nat) : List Nat :=
  buf.take off ++ bs ++ buf.drop (off + bs.length)

/-- The bytes `snprintf` stores at its destination for size argument `n` and
formatted text `s`: nothing when `n` is zero, otherwise at most `n - 1` bytes
of `s` and a terminating NUL. -/
def snprintf_bytes (n : Nat) (s : List Nat) : List Nat :=
  if n = 0 then [] else s.take (n - 1) ++ [0]

/-- The call `snprintf(buf + off, n, ...)` where the conversions produce the
text `s`: the new contents of `buf` and the return value, the length of `s`.
`none` when a byte would be stored outside `buf`. -/
def snprintf (buf : List Nat) (off n : Nat) (s : List Nat) : Option (List Nat × Nat) :=
  if snprintf_bytes n s = [] then some (buf, s.length)
  else if off + (snprintf_bytes n s).length ≤ buf.length then
    some (store buf off (snprintf_bytes n s), s.length)
  else none

/-- The ways a run leaves the program: `out_of_bounds off remaining` is the
undefined behaviour of a `snprintf` call that, made with the cursor at offset
`off` and the `int` size `remaining`, stores outside the buffer; `abort` is
the call of `abort()` by a failed `ESP_ERROR_CHECK` or `assert`. -/
inductive Fault where
  | out_of_bounds (off : Nat) (remaining : Int)
  | abort
  deriving DecidableEq, Repr

deriving instance DecidableEq for Except

/-- The locals of a formatter: the buffer contents, the cursor `ptr` as an
offset from the start of the buffer, `remaining`, and the record of the
`snprintf` calls made so far as pairs (offset, `remaining`). -/
structure Cursor where
  buf : List Nat
  off : Nat
  remaining : Int
  calls : List (Nat × Int)
  deriving DecidableEq, Repr

/-! ## ESP-IDF types -/

/-- The fields of `wifi_ap_record_t` that the firmware reads: `ssid` holds the
bytes of `uint8_t ssid[33]` (trailing zero bytes may be left out), `rssi` is
an `int8_t`, `primary` a `uint8_t`, `authmode` an enumeration. -/
structure wifi_ap_record_t where
  ssid : List Nat
  rssi : Int
  primary : Nat
  authmode : Nat
  deriving DecidableEq, Repr

/-- The error code `ESP_OK`. -/
def ESP_OK : Int := 0

/-- The error code `ESP_FAIL`. -/
def ESP_FAIL : Int := -1

/-! ## Classic-SPP revision -/

namespace Classic

/-- The constant `MAX_APS`. -/
def MAX_APS : Nat := 20

/-- The file-scope variables of the classic-SPP revision. -/
structure State where
  bt_connected : Bool
  spp_handle : Nat
  ap_info : List wifi_ap_record_t
  ap_count : Nat
  deriving DecidableEq, Repr

/-- The statement group `written = snprintf(ptr, remaining, ...); ptr += written;
remaining -= written;`. -/
def emit (c : Cursor) (s : List Nat) : Except Fault Cursor :=
  match snprintf c.buf c.off (size_t c.remaining) s with
  | none => .error (.out_of_bounds c.off c.remaining)
  | some (buf, written) =>
    .ok { buf := buf, off := c.off + written, remaining := c.remaining - written,
          calls := c.calls ++ [(c.off, c.remaining)] }

/-- The array `ssid_str`: 32 bytes copied from the record, read as a C string. -/
def ssid_str (r : wifi_ap_record_t) : List Nat := cstr (r.ssid.take 32)

/-- The body of the loop of `send_scan_results` for one record. -/
def emit_record (c : Cursor) (r : wifi_ap_record_t) : Except Fault Cursor :=
  emit c (bytes "SSID: " ++ ssid_str r ++ bytes "\n") >>= fun c =>
  emit c (bytes "  RSSI: " ++ fmt_d r.rssi ++ bytes " dBm\n") >>= fun c =>
  emit c (bytes "  Channel: " ++ fmt_d r.primary ++ bytes "\n") >>= fun c =>
  emit c (bytes "  Auth: " ++ fmt_d r.authmode ++ bytes "\n\n")

/-- The loop `for (i = 0; i < ap_count && remaining > 50; i++)` over the
records `ap_info[i], ap_info[i+1], ...` still to be visited. -/
def send_loop : List wifi_ap_record_t → Cursor → Except Fault Cursor
  | [], c => .ok c
  | r :: rs, c =>
    if c.remaining > 50 then emit_record c r >>= send_loop rs else .ok c

/-- The formatting part of `send_scan_results`: header, records, footer.
`buffer` is the indeterminate initial contents of the local array. -/
def format_results (st : State) (buffer : List Nat) : Except Fault Cursor :=
  emit { buf := buffer, off := 0, remaining := 512, calls := [] }
      (bytes "=== WiFi Scan Results ===\n") >>= fun c =>
  send_loop (st.ap_info.take st.ap_count) c >>= fun c =>
  emit c (bytes "=== End of Results ===\n")

/-- The function `send_scan_results`: the file-scope variables after the call
(the function assigns to none of them) and the list of `esp_spp_write` calls
it makes, each as (handle, payload), the payload being the first
`strlen(buffer)` bytes of the buffer. -/
def send_scan_results (st : State) (buffer : List Nat) :
    Except Fault (State × List (Nat × List Nat)) :=
  if !st.bt_connected || st.spp_handle == 0 || st.ap_count == 0 then .ok (st, [])
  else
    match format_results st buffer with
    | .error e => .error e
    | .ok c => .ok (st, [(st.spp_handle, cstr c.buf)])

/-- The outcomes of the driver calls made by `scan_wifi_networks`: the codes
returned by `esp_wifi_scan_start` and `esp_wifi_scan_get_ap_records`, and the
access points the driver holds after the scan. -/
structure ScanDriver where
  esp_wifi_scan_start : Int
  esp_wifi_scan_get_ap_records : Int
  records : List wifi_ap_record_t
  deriving DecidableEq, Repr

/-- The function `scan_wifi_networks`.  A successful
`esp_wifi_scan_get_ap_records(&ap_count, ap_info)` fills the first entries of
`ap_info` with at most `MAX_APS` records and sets `ap_count` to their number. -/
def scan_wifi_networks (d : ScanDriver) (st : State) : State :=
  if d.esp_wifi_scan_start ≠ ESP_OK then st
  else if d.esp_wifi_scan_get_ap_records ≠ ESP_OK then { st with ap_count := 0 }
  else
    { st with
      ap_count := (d.records.take MAX_APS).length
      ap_info := d.records.take MAX_APS ++ st.ap_info.drop (d.records.take MAX_APS).length }

/-- A line of text: its bytes followed by a newline. -/
def line (l : List Nat) : List Nat := l ++ [10]

/-- The report block of one record as the report format describes it: the
lines `SSID: <name>`, `  RSSI: <int> dBm`, `  Channel: <int>`, `  Auth: <int>`
and a blank line. -/
def block (r : wifi_ap_record_t) : List Nat :=
  line (bytes "SSID: " ++ ssid_str r) ++ line (bytes "  RSSI: " ++ fmt_d r.rssi ++ bytes " dBm")
    ++ line (bytes "  Channel: " ++ fmt_d r.primary) ++ line (bytes "  Auth: " ++ fmt_d r.authmode)
    ++ line []

/-- The blocks of a list of records, in order. -/
def blocks : List wifi_ap_record_t → List Nat
  | [] => []
  | r :: rs => block r ++ blocks rs

/-- The complete rendering of a list of records as the report format describes
it: header line, one block per record, footer line. -/
def report (rs : List wifi_ap_record_t) : List Nat :=
  line (bytes "=== WiFi Scan Results ===") ++ blocks rs ++ line (bytes "=== End of Results ===")

/-- The cursor stands right after `text`: the buffer of 512 bytes starts with
`text`, `ptr` is at its end and `remaining` is what is left of the buffer. -/
def Holds (c : Cursor) (text : List Nat) : Prop :=
  (∃ rest, c.buf = text ++ rest) ∧ c.buf.length = 512 ∧ c.off = text.length
    ∧ c.remaining = 512 - (text.length : Int)

/-- The buffer holds `text` followed by a NUL. -/
def Terminated (c : Cursor) (text : List Nat) : Prop :=
  ∃ rest, c.buf = text ++ 0 :: rest

/-- The lines of a text: the runs of bytes between newlines (the last one is
what follows the last newline). -/
def split_lines : List Nat → List (List Nat)
  | [] => [[]]
  | b :: bs =>
    if b = 10 then [] :: split_lines bs
    else
      match split_lines bs with
      | [] => [[b]]
      | l :: ls => (b :: l) :: ls

/-- The number of lines of a text that begin with `SSID: `. -/
def ssid_line_count (t : List Nat) : Nat :=
  ((split_lines t).filter (fun l => (bytes "SSID: ").isPrefixOf l)).length

/-- An entry of `ap_info` that no scan has filled: all fields zero. -/
def blank_record : wifi_ap_record_t := { ssid := [], rssi := 0, primary := 0, authmode := 0 }

/-- The array `ap_info` holding `rs` in its first entries. -/
def ap_array (rs : List wifi_ap_record_t) : List wifi_ap_record_t :=
  rs ++ List.replicate (MAX_APS - rs.length) blank_record

/-- A local array of 512 bytes, here zero-filled. -/
def zeros : List Nat := List.replicate 512 0

/-- Twenty access points named `AP` at -60 dBm on channel 6, with a peer connected. -/
def crowded : State :=
  { bt_connected := true, spp_handle := 7, ap_count := 20,
    ap_info := List.replicate 20 { ssid := bytes "AP", rssi := -60, primary := 6, authmode := 3 } }

/-- One access point whose SSID holds a newline followed by `SSID: y`. -/
def injected : State :=
  { bt_connected := true, spp_handle := 7, ap_count := 1,
    ap_info := ap_array [{ ssid := bytes "x\nSSID: y", rssi := -60, primary := 6, authmode := 3 }] }

/-- Seven access points with SSIDs of 25 bytes at -70 dBm on channel 6. -/
def overrun : State :=
  { bt_connected := true, spp_handle := 7, ap_count := 7,
    ap_info := ap_array
      (List.replicate 7 { ssid := List.replicate 25 65, rssi := -70, primary := 6, authmode := 3 }) }

/-- The record `Net-A`, -40 dBm, channel 6. -/
def net_a (auth : Nat) : wifi_ap_record_t :=
  { ssid := bytes "Net-A", rssi := -40, primary := 6, authmode := auth }

/-- The record `Net-B`, -70 dBm, channel 11. -/
def net_b (auth : Nat) : wifi_ap_record_t :=
  { ssid := bytes "Net-B", rssi := -70, primary := 11, authmode := auth }

/-- The hidden network: empty SSID, -55 dBm, channel 1. -/
def hidden (auth : Nat) : wifi_ap_record_t :=
  { ssid := [], rssi := -55, primary := 1, authmode := auth }

/-- The state a successful scan of `Net-A`, `Net-B` and the hidden network left,
with a peer connected. -/
def three_networks : State :=
  { bt_connected := true, spp_handle := 7, ap_count := 3,
    ap_info := ap_array [net_a 3, net_b 4, hidden 0] }

/-- A scan whose start fails. -/
def failing_start : ScanDriver :=
  { esp_wifi_scan_start := ESP_FAIL, esp_wifi_scan_get_ap_records := ESP_OK, records := [] }

/-- A disconnected state with records of an earlier scan. -/
def idle : State := { three_networks with bt_connected := false, spp_handle := 0 }

/-- The name a report line carries for a record, as the report format words
it: the bytes of `ssid` up to the first NUL, at most 32 of them. -/
def ssid_name (r : wifi_ap_record_t) : List Nat :=
  (r.ssid.takeWhile (fun b => b != 0)).take 32

/-- The decimal numeral of an integer, as bytes. -/
def decimal (v : Int) : List Nat := bytes (toString v)

/-- The block of one record in the payload, worded from the report format and
not from the code: the lines `SSID: <name>`, `  RSSI: <rssi> dBm`,
`  Channel: <primary>`, `  Auth: <authmode>` and one blank line. -/
def expected_block (r : wifi_ap_record_t) : List Nat :=
  line (bytes "SSID: " ++ ssid_name r) ++ line (bytes "  RSSI: " ++ decimal r.rssi ++ bytes " dBm")
    ++ line (bytes "  Channel: " ++ decimal r.primary)
    ++ line (bytes "  Auth: " ++ decimal r.authmode) ++ line []

/-- The blocks of a list of records in the payload, in scan order. -/
def expected_blocks : List wifi_ap_record_t → List Nat
  | [] => []
  | r :: rs => expected_block r ++ expected_blocks rs

/-- The payload for a list of records, worded from the report format: the line
`=== WiFi Scan Results ===`, one block per record, the line
`=== End of Results ===`. -/
def expected_payload (rs : List wifi_ap_record_t) : List Nat :=
  line (bytes "=== WiFi Scan Results ===") ++ expected_blocks rs
    ++ line (bytes "=== End of Results ===")

/-- The events of `esp_spp_cb_event_t` with the parameters `spp_callback`
reads: the handle of `open` and the length and bytes of `data_ind`; `other`
stands for the events of the `default` case. -/
inductive SppEvent where
  | ESP_SPP_INIT_EVT
  | ESP_SPP_START_EVT
  | ESP_SPP_SRV_OPEN_EVT (handle : Nat)
  | ESP_SPP_CLOSE_EVT
  | ESP_SPP_DATA_IND_EVT (len : Nat) (data : List Nat)
  | other
  deriving DecidableEq, Repr

/-- The local `len` of the `ESP_SPP_DATA_IND_EVT` case:
`data_ind.len < sizeof(cmd) ? data_ind.len : sizeof(cmd) - 1` with `char cmd[10]`. -/
def cmd_len (len : Nat) : Nat := if len < 10 then len else 10 - 1

/-- The statements `memcpy(cmd, data, len); cmd[len] = 0;` on the array `cmd`
with `n` for the local `len`: the array after them, `none` when a byte would
be stored outside `cmd`. -/
def fill_cmd (cmd : List Nat) (n : Nat) (data : List Nat) : Option (List Nat) :=
  if n < cmd.length then some ((store cmd 0 (data.take n)).set n 0) else none

/-- The function `spp_callback`: the file-scope variables after the event and
whether the line `Scan requested via Bluetooth` was logged, that is whether
`strcmp(cmd, "SCAN") == 0`.  `cmd` is the indeterminate initial contents of the
local array; `none` when a byte would be stored outside it. -/
def spp_callback (st : State) (cmd : List Nat) : SppEvent → Option (State × Bool)
  | .ESP_SPP_SRV_OPEN_EVT handle =>
    some ({ st with bt_connected := true, spp_handle := handle }, false)
  | .ESP_SPP_CLOSE_EVT => some ({ st with bt_connected := false, spp_handle := 0 }, false)
  | .ESP_SPP_DATA_IND_EVT len data =>
    if len > 0 then
      match fill_cmd cmd (cmd_len len) data with
      | none => none
      | some cmd1 => some (st, cstr cmd1 == bytes "SCAN")
    else some (st, false)
  | _ => some (st, false)

/-- A local array of 10 bytes, here filled with the byte 255. -/
def junk_cmd : List Nat := List.replicate 10 255

end Classic

/-! ## Current revision -/

namespace Current

/-- The file-scope variables of the current revision; `sta_netif` is `none`
for the null pointer. -/
structure Radio where
  event_loop_initialized : Bool
  sta_netif : Option Nat
  deriving DecidableEq, Repr

/-- The macro `ESP_ERROR_CHECK` of ESP-IDF: `abort()` unless the code is `ESP_OK`. -/
def ESP_ERROR_CHECK (x : Int) : Except Fault Unit :=
  if x = ESP_OK then .ok () else .error .abort

/-- The outcomes of the driver calls made by `init_wifi_for_scan`. -/
structure InitDriver where
  esp_netif_init : Int
  esp_event_loop_create_default : Int
  esp_netif_create_default_wifi_sta : Option Nat
  esp_wifi_init : Int
  esp_wifi_set_mode : Int
  esp_wifi_start : Int
  deriving DecidableEq, Repr

/-- The function `init_wifi_for_scan`: its return value and the file-scope
variables after it.  The results of the leading `esp_wifi_stop()` and
`esp_wifi_deinit()` are dropped by the code. -/
def init_wifi_for_scan (d : InitDriver) (st : Radio) : Except Fault (Int × Radio) :=
  (if !st.event_loop_initialized then
      ESP_ERROR_CHECK d.esp_netif_init >>= fun _ =>
      ESP_ERROR_CHECK d.esp_event_loop_create_default >>= fun _ =>
      .ok { st with event_loop_initialized := true }
    else .ok st) >>= fun st =>
  (if st.sta_netif.isNone then
      (if d.esp_netif_create_default_wifi_sta.isSome then
          .ok { st with sta_netif := d.esp_netif_create_default_wifi_sta }
        else .error .abort)
    else .ok st) >>= fun st =>
  ESP_ERROR_CHECK d.esp_wifi_init >>= fun _ =>
  ESP_ERROR_CHECK d.esp_wifi_set_mode >>= fun _ =>
  ESP_ERROR_CHECK d.esp_wifi_start >>= fun _ =>
  .ok (ESP_OK, st)

/-- The outcomes of the driver calls made by `perform_wifi_scan`: the codes
returned by the three calls, the number `esp_wifi_scan_get_ap_num` reports and
the access points the driver holds after the scan. -/
structure ScanDriver where
  esp_wifi_scan_start : Int
  esp_wifi_scan_get_ap_num : Int
  ap_count : Nat
  esp_wifi_scan_get_ap_records : Int
  records : List wifi_ap_record_t
  deriving DecidableEq, Repr

/-- What `perform_wifi_scan` leaves: its return value, the contents of
`result_buffer`, the local array `ap_records` as retrieved (empty when the
retrieval was not reached) and the `snprintf` calls made, as pairs
(offset of the destination, size argument). -/
structure ScanOutcome where
  ret : Int
  result_buffer : List Nat
  ap_records : List wifi_ap_record_t
  calls : List (Nat × Int)
  deriving DecidableEq, Repr

/-- The statement group `written = snprintf(ptr, remaining, ...);
if (written > 0) { ptr += written; remaining -= written; }`. -/
def emit (c : Cursor) (s : List Nat) : Except Fault Cursor :=
  match snprintf c.buf c.off (size_t c.remaining) s with
  | none => .error (.out_of_bounds c.off c.remaining)
  | some (buf, written) =>
    if written > 0 then
      .ok { buf := buf, off := c.off + written, remaining := c.remaining - written,
            calls := c.calls ++ [(c.off, c.remaining)] }
    else
      .ok { buf := buf, off := c.off, remaining := c.remaining,
            calls := c.calls ++ [(c.off, c.remaining)] }

/-- The text of `"%2d: %-32s (%3d dBm) Ch:%2d\n"` for the record at index `i`. -/
def record_line (i : Nat) (r : wifi_ap_record_t) : List Nat :=
  pad_left 2 (fmt_d ((i : Int) + 1)) ++ bytes ": " ++ pad_right 32 (cstr r.ssid) ++ bytes " ("
    ++ pad_left 3 (fmt_d r.rssi) ++ bytes " dBm) Ch:" ++ pad_left 2 (fmt_d r.primary)
    ++ bytes "\n"

/-- The loop `for (i = ...; i < ap_num && remaining > 50; i++)` over the
records `ap_records[i], ap_records[i+1], ...` still to be visited. -/
def scan_loop : List wifi_ap_record_t → Nat → Cursor → Except Fault Cursor
  | [], _, c => .ok c
  | r :: rs, i, c =>
    if c.remaining > 50 then emit c (record_line i r) >>= scan_loop rs (i + 1) else .ok c

/-- The function `perform_wifi_scan`.  A successful
`esp_wifi_scan_get_ap_records(&ap_num, ap_records)` fills `ap_records` with at
most `ap_num` records and sets `ap_num` to their number. -/
def perform_wifi_scan (d : ScanDriver) (result_buffer : List Nat) (buffer_size : Nat) :
    Except Fault ScanOutcome :=
  if d.esp_wifi_scan_start ≠ ESP_OK then
    .ok { ret := d.esp_wifi_scan_start, result_buffer := result_buffer, ap_records := [],
          calls := [] }
  else if d.esp_wifi_scan_get_ap_num ≠ ESP_OK then
    .ok { ret := d.esp_wifi_scan_get_ap_num, result_buffer := result_buffer, ap_records := [],
          calls := [] }
  else if d.ap_count % 65536 = 0 then
    match snprintf result_buffer 0 (buffer_size % 4294967296) (bytes "No networks found") with
    | none => .error (.out_of_bounds 0 buffer_size)
    | some (buf, _) =>
      .ok { ret := ESP_OK, result_buffer := buf, ap_records := [], calls := [(0, buffer_size)] }
  else if d.esp_wifi_scan_get_ap_records ≠ ESP_OK then
    .ok { ret := d.esp_wifi_scan_get_ap_records, result_buffer := result_buffer,
          ap_records := [], calls := [] }
  else
    let ap_records := d.records.take (if d.ap_count % 65536 > 20 then 20 else d.ap_count % 65536)
    let ap_num := ap_records.length
    emit { buf := result_buffer, off := 0, remaining := int_of_size_t buffer_size, calls := [] }
        (bytes "Found " ++ fmt_d ap_num ++ bytes " networks:\n") >>= fun c =>
    scan_loop ap_records 0 c >>= fun c =>
    .ok { ret := ESP_OK, result_buffer := c.buf, ap_records := ap_records, calls := c.calls }

/-- One pass of the loop of `scanner_task` up to the end of step 1: the
file-scope variables and the array `scan_results` after it.  The rest of the
pass changes neither. -/
def scanner_task_cycle (id : InitDriver) (sd : ScanDriver) (st : Radio)
    (scan_results : List Nat) : Except Fault (Radio × List Nat) :=
  match init_wifi_for_scan id st with
  | .error e => .error e
  | .ok (ret, st) =>
    if ret = ESP_OK then
      match perform_wifi_scan sd (List.replicate 512 0) 512 with
      | .error e => .error e
      | .ok out => .ok (st, out.result_buffer)
    else .ok (st, scan_results)

/-- The complete lines of the records `rs`, numbered from `i + 1` on. -/
def record_lines : Nat → List wifi_ap_record_t → List Nat
  | _, [] => []
  | i, r :: rs => record_line i r ++ record_lines (i + 1) rs

/-- A driver whose calls all succeed and which holds the records `rs`. -/
def found (rs : List wifi_ap_record_t) : ScanDriver :=
  { esp_wifi_scan_start := ESP_OK, esp_wifi_scan_get_ap_num := ESP_OK, ap_count := rs.length,
    esp_wifi_scan_get_ap_records := ESP_OK, records := rs }

/-- The record `Net-A`, -40 dBm, channel 6. -/
def net_a : wifi_ap_record_t :=
  { ssid := bytes "Net-A", rssi := -40, primary := 6, authmode := 3 }

/-- A record at -100 dBm on channel 100. -/
def far_5g : wifi_ap_record_t :=
  { ssid := bytes "Far", rssi := -100, primary := 100, authmode := 3 }

/-- A driver on which `esp_wifi_init` fails. -/
def wifi_init_fails : InitDriver :=
  { esp_netif_init := ESP_OK, esp_event_loop_create_default := ESP_OK,
    esp_netif_create_default_wifi_sta := some 1, esp_wifi_init := ESP_FAIL,
    esp_wifi_set_mode := ESP_OK, esp_wifi_start := ESP_OK }

/-- The file-scope variables at boot. -/
def boot : Radio := { event_loop_initialized := false, sta_netif := none }

/-- The driver calls made by `stop_all_radio`. -/
inductive RadioCall where
  | esp_wifi_stop
  | esp_wifi_deinit
  | esp_netif_destroy (netif : Nat)
  deriving DecidableEq, Repr

/-- The function `stop_all_radio`: the file-scope variables after it and the
driver calls it makes, in order. -/
def stop_all_radio (st : Radio) : Radio × List RadioCall :=
  match st.sta_netif with
  | some netif =>
    ({ st with sta_netif := none },
      [.esp_wifi_stop, .esp_wifi_deinit, .esp_netif_destroy netif])
  | none => (st, [.esp_wifi_stop, .esp_wifi_deinit])

end Current

/-! ## Lemmas on the C library model -/

theorem size_t_of_nat (n : Nat) (h : n < 4294967296) : size_t (n : Int) = n := by
  unfold size_t
  omega

theorem snprintf_bytes_fits (n : Nat) (s : List Nat) (h : s.length < n) :
    snprintf_bytes n s = s ++ [0] := by
  unfold snprintf_bytes
  have hn : n ≠ 0 := by omega
  rw [if_neg hn, List.take_of_length_le (by omega)]

theorem store_append (text rest bs : List Nat) :
    store (text ++ rest) text.length bs = text ++ bs ++ rest.drop bs.length := by
  unfold store
  simp [List.take_append_eq_append_take, List.drop_append_eq_append_drop]

theorem dec_digits_mem (fuel : Nat) :
    ∀ (n : Nat) (acc : List Nat) (x : Nat), x ∈ dec_digits fuel n acc →
      (48 ≤ x ∧ x ≤ 57) ∨ x ∈ acc := by
  induction fuel with
  | zero =>
    intro n acc x hx
    exact Or.inr hx
  | succ fuel ih =>
    intro n acc x hx
    unfold dec_digits at hx
    split at hx
    · rcases List.mem_cons.mp hx with h | h
      · left; omega
      · exact Or.inr h
    · rcases ih _ _ _ hx with h | h
      · exact Or.inl h
      · rcases List.mem_cons.mp h with h | h
        · left; omega
        · exact Or.inr h

theorem dec_digits_length (k : Nat) :
    ∀ (fuel n : Nat) (acc : List Nat), n < 10 ^ (k + 1) →
      (dec_digits fuel n acc).length ≤ acc.length + (k + 1) := by
  induction k with
  | zero =>
    intro fuel n acc hn
    cases fuel with
    | zero => simp [dec_digits]
    | succ fuel =>
      unfold dec_digits
      rw [if_pos (by simpa using hn)]
      simp
  | succ k ih =>
    intro fuel n acc hn
    cases fuel with
    | zero => simp [dec_digits]
    | succ fuel =>
      unfold dec_digits
      split
      · simp
      · have h10 : n / 10 < 10 ^ (k + 1) := by
          rw [Nat.div_lt_iff_lt_mul (by decide)]
          calc n < 10 ^ (k + 1 + 1) := hn
            _ = 10 ^ (k + 1) * 10 := by rw [pow_succ]
        have := ih fuel (n / 10) ((48 + n % 10) :: acc) h10
        simp only [List.length_cons] at this
        omega

theorem fmt_d_length_nat (a : Nat) (h : a < 2147483648) : (fmt_d (a : Int)).length ≤ 10 := by
  unfold fmt_d
  rw [if_neg (by omega)]
  have := dec_digits_length 9 ((a : Int).natAbs + 1) (a : Int).natAbs [] (by
    simp only [Int.natAbs_ofNat]
    omega)
  simpa using this

theorem fmt_d_mem (v : Int) (x : Nat) (hx : x ∈ fmt_d v) : x = 45 ∨ (48 ≤ x ∧ x ≤ 57) := by
  unfold fmt_d at hx
  split at hx
  · rcases List.mem_cons.mp hx with h | h
    · exact Or.inl h
    · rcases dec_digits_mem _ _ _ _ h with h | h
      · exact Or.inr h
      · simp at h
  · rcases dec_digits_mem _ _ _ _ hx with h | h
    · exact Or.inr h
    · simp at h

theorem cstr_ne_zero (a : List Nat) (x : Nat) (hx : x ∈ cstr a) : x ≠ 0 := by
  unfold cstr at hx
  have := List.mem_takeWhile_imp hx
  simpa using this

theorem cstr_append_nul (t rest : List Nat) (h : ∀ x ∈ t, x ≠ 0) :
    cstr (t ++ 0 :: rest) = t := by
  unfold cstr
  induction t with
  | nil => simp
  | cons a t ih =>
    have ha : a ≠ 0 := h a (List.mem_cons_self _ _)
    have ht : ∀ x ∈ t, x ≠ 0 := fun x hx => h x (List.mem_cons_of_mem _ hx)
    simp [List.takeWhile_cons, ha, ih ht]

namespace Classic

theorem emit_fits (c : Cursor) (text rest s : List Nat)
    (hb : c.buf = text ++ rest) (hl : c.buf.length = 512) (ho : c.off = text.length)
    (hr : c.remaining = 512 - (text.length : Int)) (hs : text.length + s.length < 512) :
    ∃ c1, emit c s = .ok c1 ∧ c1.buf = (text ++ s) ++ 0 :: rest.drop (s.length + 1)
      ∧ c1.buf.length = 512 ∧ c1.off = (text ++ s).length
      ∧ c1.remaining = 512 - ((text ++ s).length : Int) := by
  have hlen : text.length + rest.length = 512 := by
    have := hl
    rw [hb, List.length_append] at this
    exact this
  have hsz : size_t c.remaining = 512 - text.length := by
    have h1 : c.remaining = ((512 - text.length : Nat) : Int) := by omega
    rw [h1, size_t_of_nat _ (by omega)]
  have hbytes : snprintf_bytes (512 - text.length) s = s ++ [0] :=
    snprintf_bytes_fits _ _ (by omega)
  have hsn : snprintf c.buf c.off (size_t c.remaining) s
      = some ((text ++ s) ++ 0 :: rest.drop (s.length + 1), s.length) := by
    unfold snprintf
    rw [hsz, hbytes, if_neg (by simp), if_pos (by simp; omega), hb, ho, store_append]
    simp
  refine ⟨_, by unfold emit; rw [hsn], rfl, ?_, ?_, ?_⟩
  · simp only [List.length_append, List.length_cons, List.length_drop]
    omega
  · simp only [List.length_append]
    omega
  · simp only [List.length_append, hr]
    push_cast
    omega

theorem emit_holds (c : Cursor) (text s : List Nat) (h : Holds c text)
    (hs : text.length + s.length < 512) :
    ∃ c1, emit c s = .ok c1 ∧ Holds c1 (text ++ s) ∧ Terminated c1 (text ++ s) := by
  obtain ⟨⟨rest, hb⟩, hl, ho, hr⟩ := h
  obtain ⟨c1, h1, h2, h3, h4, h5⟩ := emit_fits c text rest s hb hl ho hr hs
  exact ⟨c1, h1, ⟨⟨_, h2⟩, h3, h4, h5⟩, ⟨_, h2⟩⟩

theorem block_eq (r : wifi_ap_record_t) :
    block r = (bytes "SSID: " ++ ssid_str r ++ bytes "\n")
      ++ (bytes "  RSSI: " ++ fmt_d r.rssi ++ bytes " dBm\n")
      ++ (bytes "  Channel: " ++ fmt_d r.primary ++ bytes "\n")
      ++ (bytes "  Auth: " ++ fmt_d r.authmode ++ bytes "\n\n") := by
  have e1 : bytes "\n" = [10] := by decide
  have e2 : bytes " dBm\n" = bytes " dBm" ++ [10] := by decide
  have e3 : bytes "\n\n" = [10, 10] := by decide
  simp only [block, line, e1, e2, e3, List.append_assoc, List.nil_append, List.cons_append,
    List.singleton_append]

theorem emit_record_holds (c : Cursor) (text : List Nat) (r : wifi_ap_record_t)
    (h : Holds c text) (hs : text.length + (block r).length < 512) :
    ∃ c1, emit_record c r = .ok c1 ∧ Holds c1 (text ++ block r)
      ∧ Terminated c1 (text ++ block r) := by
  rw [block_eq] at hs ⊢
  simp only [List.length_append] at hs
  obtain ⟨c1, e1, h1, -⟩ := emit_holds c text (bytes "SSID: " ++ ssid_str r ++ bytes "\n") h
    (by simp only [List.length_append]; omega)
  obtain ⟨c2, e2, h2, -⟩ := emit_holds c1 _ (bytes "  RSSI: " ++ fmt_d r.rssi ++ bytes " dBm\n") h1
    (by simp only [List.length_append]; omega)
  obtain ⟨c3, e3, h3, -⟩ := emit_holds c2 _ (bytes "  Channel: " ++ fmt_d r.primary ++ bytes "\n") h2
    (by simp only [List.length_append]; omega)
  obtain ⟨c4, e4, h4, t4⟩ := emit_holds c3 _ (bytes "  Auth: " ++ fmt_d r.authmode ++ bytes "\n\n") h3
    (by simp only [List.length_append]; omega)
  refine ⟨c4, ?_, ?_, ?_⟩
  · unfold emit_record
    rw [e1]
    show (emit c1 _ >>= _) = _
    rw [e2]
    show (emit c2 _ >>= _) = _
    rw [e3]
    exact e4
  · simpa only [List.append_assoc] using h4
  · simpa only [List.append_assoc] using t4

theorem block_length (r : wifi_ap_record_t) :
    (block r).length = 42 + (ssid_str r).length + (fmt_d r.rssi).length
      + (fmt_d r.primary).length + (fmt_d r.authmode).length := by
  rw [block_eq]
  simp only [List.length_append]
  have a1 : (bytes "SSID: ").length = 6 := by decide
  have a2 : (bytes "\n").length = 1 := by decide
  have a3 : (bytes "  RSSI: ").length = 8 := by decide
  have a4 : (bytes " dBm\n").length = 5 := by decide
  have a5 : (bytes "  Channel: ").length = 11 := by decide
  have a6 : (bytes "  Auth: ").length = 8 := by decide
  have a7 : (bytes "\n\n").length = 2 := by decide
  omega

theorem block_length_ge (r : wifi_ap_record_t) : 42 ≤ (block r).length := by
  rw [block_length]
  omega

theorem send_loop_holds (rs : List wifi_ap_record_t) :
    ∀ (c : Cursor) (text : List Nat), Holds c text →
      text.length + (blocks rs).length + 23 < 512 →
      ∃ c1, send_loop rs c = .ok c1 ∧ Holds c1 (text ++ blocks rs) := by
  induction rs with
  | nil =>
    intro c text h _
    exact ⟨c, rfl, by simpa [blocks] using h⟩
  | cons r rs ih =>
    intro c text h hs
    simp only [blocks, List.length_append] at hs
    have hge := block_length_ge r
    obtain ⟨c1, e1, h1, -⟩ := emit_record_holds c text r h (by omega)
    obtain ⟨c2, e2, h2⟩ := ih c1 (text ++ block r) h1
      (by simp only [List.length_append]; omega)
    refine ⟨c2, ?_, by simpa only [blocks, List.append_assoc] using h2⟩
    have hrem : c.remaining > 50 := by
      have := h.2.2.2
      omega
    unfold send_loop
    rw [if_pos hrem, e1]
    exact e2

theorem block_ne_zero (r : wifi_ap_record_t) (x : Nat) (hx : x ∈ block r) : x ≠ 0 := by
  have b1 : ∀ y ∈ bytes "SSID: ", y ≠ 0 := by decide
  have b2 : ∀ y ∈ bytes "  RSSI: ", y ≠ 0 := by decide
  have b3 : ∀ y ∈ bytes " dBm", y ≠ 0 := by decide
  have b4 : ∀ y ∈ bytes "  Channel: ", y ≠ 0 := by decide
  have b5 : ∀ y ∈ bytes "  Auth: ", y ≠ 0 := by decide
  have d : ∀ (v : Int), ∀ y ∈ fmt_d v, y ≠ 0 := by
    intro v y hy
    rcases fmt_d_mem v y hy with h | h <;> omega
  simp only [block, line, List.mem_append, List.mem_singleton, List.not_mem_nil, false_or] at hx
  rcases hx with ((((h | h) | h) | h) | h)
  · rcases h with (h | h) | h
    · exact b1 x h
    · exact cstr_ne_zero _ x h
    · omega
  · rcases h with ((h | h) | h) | h
    · exact b2 x h
    · exact d _ x h
    · exact b3 x h
    · omega
  · rcases h with (h | h) | h
    · exact b4 x h
    · exact d _ x h
    · omega
  · rcases h with (h | h) | h
    · exact b5 x h
    · exact d _ x h
    · omega
  · omega

theorem blocks_ne_zero (rs : List wifi_ap_record_t) : ∀ x ∈ blocks rs, x ≠ 0 := by
  induction rs with
  | nil => intro x hx; simp [blocks] at hx
  | cons r rs ih =>
    intro x hx
    simp only [blocks, List.mem_append] at hx
    rcases hx with h | h
    · exact block_ne_zero r x h
    · exact ih x h

theorem report_ne_zero (rs : List wifi_ap_record_t) : ∀ x ∈ report rs, x ≠ 0 := by
  have b1 : ∀ y ∈ line (bytes "=== WiFi Scan Results ==="), y ≠ 0 := by decide
  have b2 : ∀ y ∈ line (bytes "=== End of Results ==="), y ≠ 0 := by decide
  intro x hx
  simp only [report, List.mem_append] at hx
  rcases hx with (h | h) | h
  · exact b1 x h
  · exact blocks_ne_zero rs x h
  · exact b2 x h

theorem header_length : (line (bytes "=== WiFi Scan Results ===")).length = 26 := by decide

theorem footer_length : (line (bytes "=== End of Results ===")).length = 23 := by decide

theorem report_length (rs : List wifi_ap_record_t) :
    (report rs).length = 26 + (blocks rs).length + 23 := by
  simp only [report, List.length_append, header_length, footer_length]

/-- When the complete rendering fits, the formatter leaves it in the buffer,
NUL-terminated. -/
theorem format_results_fits (st : State) (buffer : List Nat) (hlen : buffer.length = 512)
    (hfit : (report (st.ap_info.take st.ap_count)).length ≤ 511) :
    ∃ c, format_results st buffer = .ok c
      ∧ Terminated c (report (st.ap_info.take st.ap_count)) := by
  rw [report_length] at hfit
  have h0 : Holds { buf := buffer, off := 0, remaining := 512, calls := [] } [] :=
    ⟨⟨buffer, rfl⟩, hlen, rfl, rfl⟩
  have eh : bytes "=== WiFi Scan Results ===\n" = line (bytes "=== WiFi Scan Results ===") := by
    decide
  have ef : bytes "=== End of Results ===\n" = line (bytes "=== End of Results ===") := by
    decide
  obtain ⟨c1, e1, h1, -⟩ := emit_holds _ [] (line (bytes "=== WiFi Scan Results ===")) h0
    (by rw [header_length]; simp)
  rw [List.nil_append] at h1
  obtain ⟨c2, e2, h2⟩ := send_loop_holds (st.ap_info.take st.ap_count) c1 _ h1
    (by rw [header_length]; omega)
  obtain ⟨c3, e3, -, t3⟩ := emit_holds c2 _ (line (bytes "=== End of Results ===")) h2
    (by simp only [List.length_append, header_length, footer_length]; omega)
  refine ⟨c3, ?_, t3⟩
  unfold format_results
  rw [eh, ef, e1]
  show (send_loop _ c1 >>= _) = _
  rw [e2]
  exact e3

theorem send_scan_results_fits (st : State) (buffer : List Nat) (hlen : buffer.length = 512)
    (hconn : st.bt_connected = true) (hhandle : st.spp_handle ≠ 0) (hcount : st.ap_count ≠ 0)
    (hfit : (report (st.ap_info.take st.ap_count)).length ≤ 511) :
    send_scan_results st buffer
      = .ok (st, [(st.spp_handle, report (st.ap_info.take st.ap_count))]) := by
  obtain ⟨c, e, rest, hb⟩ := format_results_fits st buffer hlen hfit
  unfold send_scan_results
  rw [if_neg (by simp [hconn, hhandle, hcount]), e]
  simp only [hb, cstr_append_nul _ _ (report_ne_zero _)]


theorem split_lines_ne_nil (t : List Nat) : split_lines t ≠ [] := by
  cases t with
  | nil => simp [split_lines]
  | cons b bs =>
    unfold split_lines
    split
    · simp
    · split <;> simp

theorem split_lines_line (l t : List Nat) (h : 10 ∉ l) :
    split_lines (line l ++ t) = l :: split_lines t := by
  induction l with
  | nil => simp [line, split_lines]
  | cons b l ih =>
    have hb : b ≠ 10 := fun e => h (e ▸ List.mem_cons_self _ _)
    have hl : 10 ∉ l := fun e => h (List.mem_cons_of_mem _ e)
    have e := ih hl
    simp only [line, List.cons_append] at e ⊢
    rw [split_lines, if_neg hb, e]

theorem ssid_line_count_line (l t : List Nat) (h : 10 ∉ l) :
    ssid_line_count (line l ++ t)
      = (if (bytes "SSID: ").isPrefixOf l then 1 else 0) + ssid_line_count t := by
  unfold ssid_line_count
  rw [split_lines_line l t h, List.filter_cons]
  split <;> simp [Nat.add_comm]

theorem fmt_d_no_newline (v : Int) : 10 ∉ fmt_d v := by
  intro h
  rcases fmt_d_mem v 10 h with h | h <;> omega

theorem ssid_line_count_block (r : wifi_ap_record_t) (t : List Nat) (h : 10 ∉ ssid_str r) :
    ssid_line_count (block r ++ t) = 1 + ssid_line_count t := by
  have e0 : bytes "SSID: " = [83, 83, 73, 68, 58, 32] := by decide
  have e1 : bytes "  RSSI: " = [32, 32, 82, 83, 83, 73, 58, 32] := by decide
  have e2 : bytes " dBm" = [32, 100, 66, 109] := by decide
  have e3 : bytes "  Channel: " = [32, 32, 67, 104, 97, 110, 110, 101, 108, 58, 32] := by decide
  have e4 : bytes "  Auth: " = [32, 32, 65, 117, 116, 104, 58, 32] := by decide
  have n1 : 10 ∉ bytes "SSID: " ++ ssid_str r := by
    simp only [e0, List.mem_append, not_or]
    exact ⟨by decide, h⟩
  have n2 : 10 ∉ bytes "  RSSI: " ++ (fmt_d r.rssi ++ bytes " dBm") := by
    simp only [e1, e2, List.mem_append, not_or]
    exact ⟨by decide, fmt_d_no_newline _, by decide⟩
  have n3 : 10 ∉ bytes "  Channel: " ++ fmt_d r.primary := by
    simp only [e3, List.mem_append, not_or]
    exact ⟨by decide, fmt_d_no_newline _⟩
  have n4 : 10 ∉ bytes "  Auth: " ++ fmt_d r.authmode := by
    simp only [e4, List.mem_append, not_or]
    exact ⟨by decide, fmt_d_no_newline _⟩
  have n5 : (10 : Nat) ∉ ([] : List Nat) := by simp
  simp only [block, List.append_assoc]
  rw [ssid_line_count_line _ _ n1, ssid_line_count_line _ _ n2, ssid_line_count_line _ _ n3,
    ssid_line_count_line _ _ n4, ssid_line_count_line _ _ n5]
  simp [e0, e1, e3, e4, List.isPrefixOf]

theorem ssid_line_count_blocks (rs : List wifi_ap_record_t) (t : List Nat)
    (h : ∀ r ∈ rs, 10 ∉ ssid_str r) :
    ssid_line_count (blocks rs ++ t) = rs.length + ssid_line_count t := by
  induction rs with
  | nil => simp [blocks]
  | cons r rs ih =>
    simp only [blocks, List.append_assoc, List.length_cons]
    rw [ssid_line_count_block r _ (h r (List.mem_cons_self _ _)),
      ih (fun x hx => h x (List.mem_cons_of_mem _ hx))]
    omega

theorem ssid_line_count_report (rs : List wifi_ap_record_t)
    (h : ∀ r ∈ rs, 10 ∉ ssid_str r) : ssid_line_count (report rs) = rs.length := by
  have n1 : 10 ∉ bytes "=== WiFi Scan Results ===" := by decide
  have p1 : (bytes "SSID: ").isPrefixOf (bytes "=== WiFi Scan Results ===") = false := by decide
  have f : ssid_line_count (line (bytes "=== End of Results ===")) = 0 := by decide
  simp only [report, List.append_assoc]
  rw [ssid_line_count_line _ _ n1, ssid_line_count_blocks rs _ h, p1, f]
  simp

/-! ### The claims on the classic-SPP revision -/

/-- C1, as stated, fails: with twenty records the loop guard stops after nine
blocks, so the payload has nine `SSID: ` lines, not twenty; and a record whose
SSID holds a newline followed by `SSID: y` yields two such lines for one
record. -/
theorem send_scan_results_ssid_lines_counterexample :
    (¬ ∃ p, send_scan_results crowded zeros = .ok (crowded, [(crowded.spp_handle, p)])
        ∧ ssid_line_count p = crowded.ap_count
        ∧ line (bytes "=== End of Results ===") <:+ p)
    ∧ (¬ ∃ p, send_scan_results injected zeros = .ok (injected, [(injected.spp_handle, p)])
        ∧ ssid_line_count p = injected.ap_count
        ∧ line (bytes "=== End of Results ===") <:+ p) := by
  have e1 : send_scan_results crowded zeros
      = .ok (crowded, [(7, report (crowded.ap_info.take 9))]) := by decide!
  have c1 : ssid_line_count (report (crowded.ap_info.take 9)) = 9 := by decide!
  have e2 : send_scan_results injected zeros
      = .ok (injected, [(7, report (injected.ap_info.take 1))]) := by decide!
  have c2 : ssid_line_count (report (injected.ap_info.take 1)) = 2 := by decide!
  constructor
  · rintro ⟨p, hp, hc, -⟩
    rw [e1] at hp
    injection hp with hp
    injection hp with _ hp
    injection hp with hp _
    injection hp with _ hp
    rw [← hp, c1] at hc
    exact absurd hc (by decide)
  · rintro ⟨p, hp, hc, -⟩
    rw [e2] at hp
    injection hp with hp
    injection hp with _ hp
    injection hp with hp _
    injection hp with _ hp
    rw [← hp, c2] at hc
    exact absurd hc (by decide)

/-- C1, amended: with a peer connected, for a scan result of K records,
1 ≤ K ≤ 20, whose SSIDs hold no newline byte and whose complete rendering is
at most 511 bytes, the text `send_scan_results` sends contains exactly K
lines beginning with `SSID: ` and ends with the complete footer line. -/
theorem send_scan_results_ssid_lines (st : State) (buffer : List Nat)
    (hlen : buffer.length = 512) (hconn : st.bt_connected = true) (hhandle : st.spp_handle ≠ 0)
    (hk1 : 1 ≤ st.ap_count) (hk : st.ap_count ≤ MAX_APS) (harr : st.ap_info.length = MAX_APS)
    (hnl : ∀ r ∈ st.ap_info.take st.ap_count, 10 ∉ ssid_str r)
    (hfit : (report (st.ap_info.take st.ap_count)).length ≤ 511) :
    ∃ p, send_scan_results st buffer = .ok (st, [(st.spp_handle, p)])
      ∧ ssid_line_count p = st.ap_count
      ∧ line (bytes "=== End of Results ===") <:+ p := by
  refine ⟨report (st.ap_info.take st.ap_count),
    send_scan_results_fits st buffer hlen hconn hhandle (by omega) hfit, ?_, ?_⟩
  · rw [ssid_line_count_report _ hnl, List.length_take, harr]
    omega
  · exact List.suffix_append _ _

theorem send_scan_results_ssid_lines_witness :
    ∃ p, send_scan_results three_networks zeros
        = .ok (three_networks, [(three_networks.spp_handle, p)])
      ∧ ssid_line_count p = three_networks.ap_count
      ∧ line (bytes "=== End of Results ===") <:+ p :=
  send_scan_results_ssid_lines three_networks zeros (by decide!) (by decide) (by decide)
    (by decide) (by decide) (by decide) (by decide) (by decide!)

/-- C2: with seven records of 25-byte SSIDs the seventh block starts with 54
bytes left; its `Channel` line is cut, which leaves `remaining` at -7 and the
cursor at offset 519, and the next `snprintf` call stores outside the buffer. -/
theorem send_scan_results_overrun :
    format_results overrun zeros = .error (.out_of_bounds 519 (-7))
      ∧ send_scan_results overrun zeros = .error (.out_of_bounds 519 (-7)) := by
  constructor <;> decide!

theorem digitChar_toNat : ∀ d, d < 10 → (Nat.digitChar d).toNat = 48 + d := by decide

theorem toDigitsCore_map (fuel : Nat) : ∀ (n : Nat) (ds : List Char),
    (Nat.toDigitsCore 10 fuel n ds).map Char.toNat = dec_digits fuel n (ds.map Char.toNat) := by
  induction fuel with
  | zero => intro n ds; rfl
  | succ fuel ih =>
    intro n ds
    unfold Nat.toDigitsCore dec_digits
    by_cases h : n < 10
    · have h0 : n / 10 = 0 := by omega
      have hm : n % 10 = n := by omega
      simp only [h0, hm, if_pos h, if_true, List.map_cons, digitChar_toNat n h]
    · have h0 : n / 10 ≠ 0 := by omega
      simp only [if_neg h0, if_neg h]
      rw [ih]
      simp only [List.map_cons, digitChar_toNat (n % 10) (by omega)]

theorem bytes_repr (n : Nat) : bytes (Nat.repr n) = dec_digits (n + 1) n [] := by
  unfold bytes Nat.repr Nat.toDigits
  simp only [List.asString, String.toList]
  rw [toDigitsCore_map]
  rfl

/-- The conversion `%d` prints the decimal numeral. -/
theorem fmt_d_eq_decimal (v : Int) : fmt_d v = decimal v := by
  unfold fmt_d decimal
  cases v with
  | ofNat m =>
    rw [if_neg (by simp)]
    show _ = bytes (Nat.repr m)
    rw [bytes_repr]
    rfl
  | negSucc m =>
    rw [if_pos (Int.negSucc_lt_zero m)]
    show _ = bytes ("-" ++ Nat.repr (m + 1))
    have : bytes ("-" ++ Nat.repr (m + 1)) = 45 :: bytes (Nat.repr (m + 1)) := by
      simp [bytes, String.toList, String.data_append]
    rw [this, bytes_repr]
    rfl

theorem take_takeWhile (p : Nat → Bool) (l : List Nat) :
    ∀ n, (l.takeWhile p).take n = (l.take n).takeWhile p := by
  induction l with
  | nil => intro n; simp
  | cons a l ih =>
    intro n
    cases n with
    | zero => simp
    | succ n =>
      by_cases ha : p a = true
      · simp [List.takeWhile_cons, ha, ih n]
      · simp [List.takeWhile_cons, ha]

/-- The array `ssid_str` read as a C string is the name of the record. -/
theorem ssid_str_eq_name (r : wifi_ap_record_t) : ssid_str r = ssid_name r := by
  unfold ssid_str ssid_name cstr
  rw [take_takeWhile]

theorem block_eq_expected (r : wifi_ap_record_t) : block r = expected_block r := by
  unfold block expected_block
  rw [ssid_str_eq_name, fmt_d_eq_decimal, fmt_d_eq_decimal, fmt_d_eq_decimal]

theorem blocks_eq_expected (rs : List wifi_ap_record_t) : blocks rs = expected_blocks rs := by
  induction rs with
  | nil => rfl
  | cons r rs ih => simp only [blocks, expected_blocks, block_eq_expected, ih]

theorem report_eq_expected (rs : List wifi_ap_record_t) : report rs = expected_payload rs := by
  unfold report expected_payload
  rw [blocks_eq_expected]

theorem decimal_length_nat (a : Nat) (h : a < 2147483648) : (decimal (a : Int)).length ≤ 10 := by
  rw [← fmt_d_eq_decimal]
  exact fmt_d_length_nat a h

/-- C4: with a peer connected and a scan result of 1 to 20 records whose
complete rendering is at most 511 bytes, `send_scan_results` makes one
`esp_spp_write` call whose payload is the line `=== WiFi Scan Results ===`,
then for each record in scan order the lines `SSID: ` with the bytes of the
SSID up to the first NUL, at most 32, `  RSSI: <rssi> dBm`,
`  Channel: <primary>`, `  Auth: <authmode>` and a blank line, then the line
`=== End of Results ===`; for the records `Net-A` (-40, channel 6), `Net-B`
(-70, channel 11) and the hidden network (-55, channel 1) the payload is the
text spelled out below, with three blocks, header and footer, and at most 512
bytes long. -/
theorem send_scan_results_payload (st : State) (buffer : List Nat)
    (hlen : buffer.length = 512) (hconn : st.bt_connected = true) (hhandle : st.spp_handle ≠ 0)
    (hk1 : 1 ≤ st.ap_count) (_hk : st.ap_count ≤ MAX_APS)
    (hfit : (expected_payload (st.ap_info.take st.ap_count)).length ≤ 511) :
    send_scan_results st buffer
        = .ok (st, [(st.spp_handle, expected_payload (st.ap_info.take st.ap_count))])
      ∧ ∀ (s3 : State) (a1 a2 a3 : Nat), s3.bt_connected = true → s3.spp_handle ≠ 0 →
          s3.ap_count = 3 →
          s3.ap_info.take 3
            = [{ ssid := bytes "Net-A", rssi := -40, primary := 6, authmode := a1 },
               { ssid := bytes "Net-B", rssi := -70, primary := 11, authmode := a2 },
               { ssid := [], rssi := -55, primary := 1, authmode := a3 }] →
          a1 < 2147483648 → a2 < 2147483648 → a3 < 2147483648 →
          send_scan_results s3 buffer
              = .ok (s3, [(s3.spp_handle,
                  bytes "=== WiFi Scan Results ===\nSSID: Net-A\n  RSSI: -40 dBm\n  Channel: 6\n  Auth: "
                    ++ decimal a1
                    ++ bytes "\n\nSSID: Net-B\n  RSSI: -70 dBm\n  Channel: 11\n  Auth: "
                    ++ decimal a2
                    ++ bytes "\n\nSSID: \n  RSSI: -55 dBm\n  Channel: 1\n  Auth: "
                    ++ decimal a3
                    ++ bytes "\n\n=== End of Results ===\n")])
            ∧ (bytes "=== WiFi Scan Results ===\nSSID: Net-A\n  RSSI: -40 dBm\n  Channel: 6\n  Auth: "
                    ++ decimal a1
                    ++ bytes "\n\nSSID: Net-B\n  RSSI: -70 dBm\n  Channel: 11\n  Auth: "
                    ++ decimal a2
                    ++ bytes "\n\nSSID: \n  RSSI: -55 dBm\n  Channel: 1\n  Auth: "
                    ++ decimal a3
                    ++ bytes "\n\n=== End of Results ===\n").length ≤ 512 := by
  rw [← report_eq_expected] at hfit ⊢
  refine ⟨send_scan_results_fits st buffer hlen hconn hhandle (by omega) hfit, ?_⟩
  intro s3 a1 a2 a3 hc hh hcount htake h1 h2 h3
  have l1 := decimal_length_nat a1 h1
  have l2 := decimal_length_nat a2 h2
  have l3 := decimal_length_nat a3 h3
  have p1 : bytes "=== WiFi Scan Results ===\nSSID: Net-A\n  RSSI: -40 dBm\n  Channel: 6\n  Auth: "
      = line (bytes "=== WiFi Scan Results ===")
        ++ (line (bytes "SSID: " ++ ssid_name (net_a 0))
        ++ (line (bytes "  RSSI: " ++ decimal (-40) ++ bytes " dBm")
        ++ (line (bytes "  Channel: " ++ decimal ((6 : Nat) : Int)) ++ bytes "  Auth: "))) := by
    decide
  have p2 : bytes "\n\nSSID: Net-B\n  RSSI: -70 dBm\n  Channel: 11\n  Auth: "
      = [10] ++ (line []
        ++ (line (bytes "SSID: " ++ ssid_name (net_b 0))
        ++ (line (bytes "  RSSI: " ++ decimal (-70) ++ bytes " dBm")
        ++ (line (bytes "  Channel: " ++ decimal ((11 : Nat) : Int)) ++ bytes "  Auth: ")))) := by
    decide
  have p3 : bytes "\n\nSSID: \n  RSSI: -55 dBm\n  Channel: 1\n  Auth: "
      = [10] ++ (line []
        ++ (line (bytes "SSID: " ++ ssid_name (hidden 0))
        ++ (line (bytes "  RSSI: " ++ decimal (-55) ++ bytes " dBm")
        ++ (line (bytes "  Channel: " ++ decimal ((1 : Nat) : Int)) ++ bytes "  Auth: ")))) := by
    decide
  have p4 : bytes "\n\n=== End of Results ===\n"
      = [10] ++ (line [] ++ line (bytes "=== End of Results ===")) := by decide
  have hrep : expected_payload
      [{ ssid := bytes "Net-A", rssi := -40, primary := 6, authmode := a1 },
       { ssid := bytes "Net-B", rssi := -70, primary := 11, authmode := a2 },
       { ssid := [], rssi := -55, primary := 1, authmode := a3 }]
      = bytes "=== WiFi Scan Results ===\nSSID: Net-A\n  RSSI: -40 dBm\n  Channel: 6\n  Auth: "
          ++ decimal a1
          ++ bytes "\n\nSSID: Net-B\n  RSSI: -70 dBm\n  Channel: 11\n  Auth: "
          ++ decimal a2
          ++ bytes "\n\nSSID: \n  RSSI: -55 dBm\n  Channel: 1\n  Auth: "
          ++ decimal a3
          ++ bytes "\n\n=== End of Results ===\n" := by
    rw [p1, p2, p3, p4]
    simp only [expected_payload, expected_blocks, expected_block, List.append_nil,
      List.append_assoc]
    simp only [line, List.append_assoc]
    rfl
  have q1 : (bytes "=== WiFi Scan Results ===\nSSID: Net-A\n  RSSI: -40 dBm\n  Channel: 6\n  Auth: ").length
      = 75 := by decide
  have q2 : (bytes "\n\nSSID: Net-B\n  RSSI: -70 dBm\n  Channel: 11\n  Auth: ").length = 52 := by
    decide
  have q3 : (bytes "\n\nSSID: \n  RSSI: -55 dBm\n  Channel: 1\n  Auth: ").length = 46 := by decide
  have q4 : (bytes "\n\n=== End of Results ===\n").length = 25 := by decide
  have hl : (bytes "=== WiFi Scan Results ===\nSSID: Net-A\n  RSSI: -40 dBm\n  Channel: 6\n  Auth: "
          ++ decimal a1
          ++ bytes "\n\nSSID: Net-B\n  RSSI: -70 dBm\n  Channel: 11\n  Auth: "
          ++ decimal a2
          ++ bytes "\n\nSSID: \n  RSSI: -55 dBm\n  Channel: 1\n  Auth: "
          ++ decimal a3
          ++ bytes "\n\n=== End of Results ===\n").length ≤ 250 := by
    simp only [List.length_append, q1, q2, q3, q4]
    omega
  have e := send_scan_results_fits s3 buffer hlen hc hh (by omega)
    (by rw [hcount, htake, report_eq_expected, hrep]; omega)
  rw [hcount, htake, report_eq_expected, hrep] at e
  exact ⟨e, by omega⟩

theorem send_scan_results_payload_witness :
    send_scan_results three_networks zeros
        = .ok (three_networks, [(7,
            bytes ("=== WiFi Scan Results ===\n"
              ++ "SSID: Net-A\n  RSSI: -40 dBm\n  Channel: 6\n  Auth: 3\n\n"
              ++ "SSID: Net-B\n  RSSI: -70 dBm\n  Channel: 11\n  Auth: 4\n\n"
              ++ "SSID: \n  RSSI: -55 dBm\n  Channel: 1\n  Auth: 0\n\n"
              ++ "=== End of Results ===\n"))])
      ∧ (bytes ("=== WiFi Scan Results ===\n"
              ++ "SSID: Net-A\n  RSSI: -40 dBm\n  Channel: 6\n  Auth: 3\n\n"
              ++ "SSID: Net-B\n  RSSI: -70 dBm\n  Channel: 11\n  Auth: 4\n\n"
              ++ "SSID: \n  RSSI: -55 dBm\n  Channel: 1\n  Auth: 0\n\n"
              ++ "=== End of Results ===\n")).length ≤ 512 := by
  have h := (send_scan_results_payload three_networks zeros (by decide!) (by decide)
    (by decide) (by decide) (by decide) (by decide!)).1
  have e : expected_payload (three_networks.ap_info.take three_networks.ap_count)
      = bytes ("=== WiFi Scan Results ===\n"
          ++ "SSID: Net-A\n  RSSI: -40 dBm\n  Channel: 6\n  Auth: 3\n\n"
          ++ "SSID: Net-B\n  RSSI: -70 dBm\n  Channel: 11\n  Auth: 4\n\n"
          ++ "SSID: \n  RSSI: -55 dBm\n  Channel: 1\n  Auth: 0\n\n"
          ++ "=== End of Results ===\n") := by decide!
  have h7 : three_networks.spp_handle = 7 := rfl
  rw [e, h7] at h
  exact ⟨h, by decide!⟩

/-- C8: when `esp_wifi_scan_start` fails, `scan_wifi_networks` returns before
it assigns to `ap_count`: the count of the previous cycle, here 3, is kept and
the following `send_scan_results` sends the three records of that cycle.  The
path of a failing `esp_wifi_scan_get_ap_records` does set `ap_count` to 0. -/
theorem scan_start_failure_keeps_stale_results :
    (scan_wifi_networks failing_start three_networks).ap_count = 3
      ∧ send_scan_results (scan_wifi_networks failing_start three_networks) zeros
          = .ok (three_networks, [(7, report [net_a 3, net_b 4, hidden 0])])
      ∧ ∀ (d : ScanDriver) (st : State), d.esp_wifi_scan_start = ESP_OK →
          d.esp_wifi_scan_get_ap_records ≠ ESP_OK → (scan_wifi_networks d st).ap_count = 0 := by
  refine ⟨by decide, by decide!, ?_⟩
  intro d st h1 h2
  unfold scan_wifi_networks
  rw [if_neg (by simp [h1]), if_pos h2]

/-- C10: called while `bt_connected` is false, `send_scan_results` makes no
`esp_spp_write` call and leaves the file-scope variables as they were. -/
theorem send_scan_results_disconnected (st : State) (buffer : List Nat)
    (h : st.bt_connected = false) : send_scan_results st buffer = .ok (st, []) := by
  unfold send_scan_results
  rw [if_pos (by simp [h])]

theorem send_scan_results_disconnected_witness :
    send_scan_results idle zeros = .ok (idle, []) :=
  send_scan_results_disconnected idle zeros (by decide)

end Classic

/-! ## Lemmas on the current revision -/

theorem snprintf_bytes_length_le (n : Nat) (s : List Nat) : (snprintf_bytes n s).length ≤ n := by
  unfold snprintf_bytes
  split
  · simp
  · simp only [List.length_append, List.length_take, List.length_singleton]
    omega

theorem store_length (buf : List Nat) (off : Nat) (bs : List Nat)
    (h : off + bs.length ≤ buf.length) : (store buf off bs).length = buf.length := by
  unfold store
  simp only [List.length_append, List.length_take, List.length_drop]
  omega

theorem store_take (buf : List Nat) (off k : Nat) (bs : List Nat)
    (h : off + bs.length ≤ buf.length) (hk : k ≤ off) :
    (store buf off bs).take k = buf.take k := by
  unfold store
  rw [List.append_assoc, List.take_append_of_le_length (by
    simp only [List.length_take]
    omega), List.take_take]
  congr 1
  omega

theorem snprintf_in_bounds (buf : List Nat) (off n : Nat) (s : List Nat)
    (h : off + n ≤ buf.length) :
    ∃ b, snprintf buf off n s = some (b, s.length) ∧ b.length = buf.length
      ∧ ∀ k, k ≤ off → b.take k = buf.take k := by
  have hle := snprintf_bytes_length_le n s
  unfold snprintf
  split
  · exact ⟨buf, rfl, rfl, fun _ _ => rfl⟩
  · rw [if_pos (by omega)]
    exact ⟨_, rfl, store_length _ _ _ (by omega), fun k hk => store_take _ _ _ _ (by omega) hk⟩

theorem snprintf_at_start (buf s : List Nat) (n : Nat) (h : s.length < n)
    (hn : n ≤ buf.length) :
    snprintf buf 0 n s = some (s ++ 0 :: buf.drop (s.length + 1), s.length) := by
  unfold snprintf
  rw [snprintf_bytes_fits n s h, if_neg (by simp), if_pos (by simp; omega)]
  simp [store]

theorem int_of_size_t_of_lt (n : Nat) (h : n < 2147483648) : int_of_size_t n = n := by
  unfold int_of_size_t
  rw [Nat.mod_eq_of_lt (by omega), if_pos h]

namespace Current

theorem emit_in_bounds (c : Cursor) (s : List Nat) (N : Nat) (hlen : c.buf.length = N)
    (hinv : (c.off : Int) + c.remaining = N) (hrem : 0 ≤ c.remaining) (hN : N < 2147483648) :
    ∃ c1, emit c s = .ok c1 ∧ c1.buf.length = N ∧ (c1.off : Int) + c1.remaining = N
      ∧ c1.calls = c.calls ++ [(c.off, c.remaining)] ∧ c.off ≤ c1.off
      ∧ ∀ k, k ≤ c.off → c1.buf.take k = c.buf.take k := by
  have hsz : size_t c.remaining = c.remaining.toNat := by
    unfold size_t
    omega
  obtain ⟨b, hb, hbl, hbt⟩ := snprintf_in_bounds c.buf c.off c.remaining.toNat s (by omega)
  unfold emit
  rw [hsz, hb]
  simp only
  by_cases hw : s.length > 0
  · rw [if_pos hw]
    refine ⟨_, rfl, by simpa [hlen] using hbl, ?_, rfl, by simp, hbt⟩
    simp only
    push_cast
    omega
  · rw [if_neg hw]
    exact ⟨_, rfl, by simpa [hlen] using hbl, hinv, rfl, le_refl _, hbt⟩

theorem scan_loop_in_bounds (N : Nat) (hN : N < 2147483648) (rs : List wifi_ap_record_t) :
    ∀ (i : Nat) (c : Cursor), c.buf.length = N → (c.off : Int) + c.remaining = N →
      ∃ c1 extra, scan_loop rs i c = .ok c1 ∧ c1.buf.length = N
        ∧ c1.calls = c.calls ++ extra
        ∧ (∀ call ∈ extra, call.2 = (N : Int) - call.1 ∧ 50 < call.2)
        ∧ ∀ k, k ≤ c.off → c1.buf.take k = c.buf.take k := by
  induction rs with
  | nil =>
    intro i c hlen _
    exact ⟨c, [], rfl, hlen, by simp, by simp, fun _ _ => rfl⟩
  | cons r rs ih =>
    intro i c hlen hinv
    unfold scan_loop
    by_cases hrem : c.remaining > 50
    · rw [if_pos hrem]
      obtain ⟨c1, e1, l1, i1, k1, o1, t1⟩ :=
        emit_in_bounds c (record_line i r) N hlen hinv (by omega) hN
      obtain ⟨c2, extra, e2, l2, k2, p2, t2⟩ := ih (i + 1) c1 l1 i1
      refine ⟨c2, (c.off, c.remaining) :: extra, ?_, l2, ?_, ?_, ?_⟩
      · rw [e1]
        exact e2
      · rw [k2, k1]
        simp
      · intro call hc
        rcases List.mem_cons.mp hc with h | h
        · subst h
          exact ⟨by simp only; omega, hrem⟩
        · exact p2 call h
      · intro k hk
        rw [t2 k (by omega), t1 k hk]
    · rw [if_neg hrem]
      exact ⟨c, [], rfl, hlen, by simp, by simp, fun _ _ => rfl⟩

theorem emit_at_start (rb s : List Nat) (N : Nat) (hlen : rb.length = N)
    (hN : N < 2147483648) (hs : s.length < N) (hpos : 0 < s.length) :
    emit { buf := rb, off := 0, remaining := (N : Int), calls := [] } s
      = .ok { buf := s ++ 0 :: rb.drop (s.length + 1), off := 0 + s.length,
              remaining := (N : Int) - (s.length : Nat), calls := [] ++ [(0, (N : Int))] } := by
  unfold emit
  simp only
  rw [size_t_of_nat N (by omega), snprintf_at_start rb s N hs (by omega)]
  simp only
  rw [if_pos hpos]

theorem init_wifi_for_scan_cases (d : InitDriver) (st : Radio) :
    init_wifi_for_scan d st = .error .abort
      ∨ (d.esp_wifi_init = ESP_OK ∧ d.esp_wifi_set_mode = ESP_OK ∧ d.esp_wifi_start = ESP_OK
          ∧ ∃ st1, init_wifi_for_scan d st = .ok (ESP_OK, st1)) := by
  unfold init_wifi_for_scan ESP_ERROR_CHECK
  by_cases a1 : d.esp_netif_init = ESP_OK <;>
  by_cases a2 : d.esp_event_loop_create_default = ESP_OK <;>
  by_cases a3 : d.esp_wifi_init = ESP_OK <;>
  by_cases a4 : d.esp_wifi_set_mode = ESP_OK <;>
  by_cases a5 : d.esp_wifi_start = ESP_OK <;>
  cases hE : st.event_loop_initialized <;>
  cases hS : st.sta_netif <;>
  cases hC : d.esp_netif_create_default_wifi_sta <;>
  simp [bind, Except.bind, *]

theorem perform_wifi_scan_main (d : ScanDriver) (rb : List Nat) (N : Nat)
    (h1 : d.esp_wifi_scan_start = ESP_OK) (h2 : d.esp_wifi_scan_get_ap_num = ESP_OK)
    (h3 : d.ap_count % 65536 ≠ 0) (h4 : d.esp_wifi_scan_get_ap_records = ESP_OK) :
    perform_wifi_scan d rb N
      = (emit { buf := rb, off := 0, remaining := int_of_size_t N, calls := [] }
          (bytes "Found "
            ++ fmt_d ((d.records.take
                (if d.ap_count % 65536 > 20 then 20 else d.ap_count % 65536)).length : Nat)
            ++ bytes " networks:\n") >>= fun c =>
        scan_loop (d.records.take (if d.ap_count % 65536 > 20 then 20 else d.ap_count % 65536))
          0 c >>= fun c =>
        .ok { ret := ESP_OK, result_buffer := c.buf,
              ap_records := d.records.take
                (if d.ap_count % 65536 > 20 then 20 else d.ap_count % 65536),
              calls := c.calls }) := by
  unfold perform_wifi_scan
  rw [if_neg (by simp [h1]), if_neg (by simp [h2]), if_neg h3, if_neg (by simp [h4])]

/-- The calls of `perform_wifi_scan`: none, or one with the whole buffer at
offset 0 followed by calls that each get the rest of the buffer, more than 50
bytes. -/
theorem perform_wifi_scan_calls (d : ScanDriver) (rb : List Nat) (N : Nat)
    (hlen : rb.length = N) (hN : N < 2147483648) :
    ∃ out, perform_wifi_scan d rb N = .ok out ∧ out.result_buffer.length = N
      ∧ (out.calls = [] ∨ ∃ extra, out.calls = (0, (N : Int)) :: extra
          ∧ ∀ call ∈ extra, call.2 = (N : Int) - call.1 ∧ 50 < call.2) := by
  by_cases h1 : d.esp_wifi_scan_start = ESP_OK
  swap
  · exact ⟨_, by unfold perform_wifi_scan; rw [if_pos h1], hlen, Or.inl rfl⟩
  by_cases h2 : d.esp_wifi_scan_get_ap_num = ESP_OK
  swap
  · exact ⟨_, by unfold perform_wifi_scan; rw [if_neg (by simp [h1]), if_pos h2], hlen,
      Or.inl rfl⟩
  by_cases h3 : d.ap_count % 65536 = 0
  · obtain ⟨b, hb, hbl, -⟩ := snprintf_in_bounds rb 0 N (bytes "No networks found") (by omega)
    refine ⟨{ ret := ESP_OK, result_buffer := b, ap_records := [], calls := [(0, (N : Int))] },
      ?_, by rw [hbl, hlen], Or.inr ⟨[], rfl, by simp⟩⟩
    unfold perform_wifi_scan
    rw [if_neg (by simp [h1]), if_neg (by simp [h2]), if_pos h3,
      Nat.mod_eq_of_lt (by omega), hb]
  by_cases h4 : d.esp_wifi_scan_get_ap_records = ESP_OK
  swap
  · exact ⟨_, by
      unfold perform_wifi_scan
      rw [if_neg (by simp [h1]), if_neg (by simp [h2]), if_neg h3, if_pos h4], hlen, Or.inl rfl⟩
  rw [perform_wifi_scan_main d rb N h1 h2 h3 h4, int_of_size_t_of_lt N hN]
  obtain ⟨c1, e1, l1, i1, k1, -, -⟩ :=
    emit_in_bounds { buf := rb, off := 0, remaining := (N : Int), calls := [] }
      (bytes "Found "
        ++ fmt_d ((d.records.take
            (if d.ap_count % 65536 > 20 then 20 else d.ap_count % 65536)).length : Nat)
        ++ bytes " networks:\n") N hlen (by simp) (by simp) hN
  obtain ⟨c2, extra, e2, l2, k2, p2, -⟩ := scan_loop_in_bounds N hN
    (d.records.take (if d.ap_count % 65536 > 20 then 20 else d.ap_count % 65536)) 0 c1 l1 i1
  refine ⟨_, by rw [e1]; show (scan_loop _ 0 c1 >>= _) = _; rw [e2]; rfl, l2,
    Or.inr ⟨extra, ?_, p2⟩⟩
  show c2.calls = _
  rw [k2, k1]
  rfl

/-! ### The claims on the current revision -/

/-- C3, as stated, fails for `buffer_size = 0`: the header call is made with
size 0, which is not positive. -/
theorem perform_wifi_scan_size_counterexample :
    ¬ ∃ out, perform_wifi_scan (found [net_a]) [] 0 = .ok out
        ∧ ∀ call ∈ out.calls, 0 < call.2 := by
  have e : perform_wifi_scan (found [net_a]) [] 0
      = .ok { ret := ESP_OK, result_buffer := [], ap_records := [net_a], calls := [(0, 0)] } := by
    decide
  rintro ⟨out, h, hc⟩
  rw [e] at h
  injection h with h
  subst h
  exact absurd (hc (0, 0) (by simp)) (by decide)

/-- C3, amended: for every `buffer_size` that fits in an `int` and every
outcome of the scan, `perform_wifi_scan` stores no byte outside
`result_buffer`: it completes without an out-of-bounds store, each `snprintf`
call gets a size equal to `buffer_size` minus the cursor offset, that size is
non-negative, and positive when `buffer_size` is at least 1; the first call
gets `buffer_size` at offset 0 and every later call a size above 50. -/
theorem perform_wifi_scan_in_bounds (d : ScanDriver) (result_buffer : List Nat)
    (buffer_size : Nat) (hlen : result_buffer.length = buffer_size)
    (hint : buffer_size < 2147483648) :
    ∃ out, perform_wifi_scan d result_buffer buffer_size = .ok out
      ∧ out.result_buffer.length = buffer_size
      ∧ (∀ call ∈ out.calls, call.2 = (buffer_size : Int) - call.1 ∧ 0 ≤ call.2
          ∧ (1 ≤ buffer_size → 0 < call.2))
      ∧ (∀ call ∈ out.calls.take 1, call = (0, (buffer_size : Int)))
      ∧ (∀ call ∈ out.calls.drop 1, 50 < call.2) := by
  obtain ⟨out, e, hl, hc⟩ := perform_wifi_scan_calls d result_buffer buffer_size hlen hint
  refine ⟨out, e, hl, ?_⟩
  rcases hc with hc | ⟨extra, hc, hp⟩
  · rw [hc]
    simp
  · rw [hc]
    refine ⟨?_, by simp, by simpa using fun a b hab => (hp (a, b) hab).2⟩
    intro call hcall
    rcases List.mem_cons.mp hcall with h | h
    · subst h
      simp only
      omega
    · have := hp call h
      omega

theorem perform_wifi_scan_in_bounds_witness :
    ∃ out, perform_wifi_scan (found [net_a]) (List.replicate 70 0) 70 = .ok out
      ∧ out.result_buffer.length = 70
      ∧ (∀ call ∈ out.calls, call.2 = ((70 : Nat) : Int) - call.1 ∧ 0 ≤ call.2
          ∧ (1 ≤ 70 → 0 < call.2))
      ∧ (∀ call ∈ out.calls.take 1, call = (0, ((70 : Nat) : Int)))
      ∧ (∀ call ∈ out.calls.drop 1, 50 < call.2) :=
  perform_wifi_scan_in_bounds (found [net_a]) (List.replicate 70 0) 70 (by decide) (by decide)

/-- C5: when the scan starts, the count is retrieved and it is 0,
`perform_wifi_scan` returns `ESP_OK` and, for every `buffer_size` of at least
18, leaves in `result_buffer` the string `No networks found` followed by its
terminating NUL. -/
theorem perform_wifi_scan_no_networks (d : ScanDriver) (result_buffer : List Nat)
    (buffer_size : Nat) (hlen : result_buffer.length = buffer_size) (h18 : 18 ≤ buffer_size)
    (hsize : buffer_size < 4294967296) (hstart : d.esp_wifi_scan_start = ESP_OK)
    (hnum : d.esp_wifi_scan_get_ap_num = ESP_OK) (hzero : d.ap_count = 0) :
    ∃ out, perform_wifi_scan d result_buffer buffer_size = .ok out ∧ out.ret = ESP_OK
      ∧ out.result_buffer.take 18 = bytes "No networks found" ++ [0]
      ∧ cstr out.result_buffer = bytes "No networks found" := by
  have hs : (bytes "No networks found").length = 17 := by decide
  have hz : ∀ x ∈ bytes "No networks found", x ≠ 0 := by decide
  have e := snprintf_at_start result_buffer (bytes "No networks found") buffer_size
    (by omega) (by omega)
  refine ⟨{ ret := ESP_OK,
            result_buffer := bytes "No networks found" ++ 0 :: result_buffer.drop (17 + 1),
            ap_records := [], calls := [(0, (buffer_size : Int))] }, ?_, rfl, ?_, ?_⟩
  · unfold perform_wifi_scan
    rw [if_neg (by simp [hstart]), if_neg (by simp [hnum]), if_pos (by simp [hzero]),
      Nat.mod_eq_of_lt hsize, e, hs]
  · show (bytes "No networks found" ++ 0 :: result_buffer.drop (17 + 1)).take 18 = _
    rw [List.take_append_eq_append_take, hs]
    simp [hs]
  · exact cstr_append_nul _ _ hz

theorem perform_wifi_scan_no_networks_witness :
    ∃ out, perform_wifi_scan (found []) (List.replicate 18 255) 18 = .ok out ∧ out.ret = ESP_OK
      ∧ out.result_buffer.take 18 = bytes "No networks found" ++ [0]
      ∧ cstr out.result_buffer = bytes "No networks found" :=
  perform_wifi_scan_no_networks (found []) (List.replicate 18 255) 18 (by decide) (by decide)
    (by decide) (by decide) (by decide) (by decide)

/-- C6: with `buffer_size = 70` and one record, 52 bytes are left after the
header, the guard `remaining > 50` lets the 53-byte record line through and
the buffer ends with its first 51 bytes, without the channel and the newline;
with `buffer_size = 512` and ten records at -100 dBm on channel 100 the ninth
line is cut after 52 of its 55 bytes. -/
theorem perform_wifi_scan_cut_record_line :
    (perform_wifi_scan (found [net_a]) (List.replicate 70 0) 70).map
        (fun o => cstr o.result_buffer)
      = .ok (bytes "Found 1 networks:\n" ++ (record_line 0 net_a).take 51)
    ∧ (record_line 0 net_a).length = 53
    ∧ (perform_wifi_scan (found (List.replicate 10 far_5g)) (List.replicate 512 0) 512).map
        (fun o => cstr o.result_buffer)
      = .ok (bytes "Found 10 networks:\n" ++ record_lines 0 (List.replicate 8 far_5g)
          ++ (record_line 8 far_5g).take 52)
    ∧ (record_line 8 far_5g).length = 55 := by
  refine ⟨by decide!, by decide!, by decide!, by decide!⟩

/-- C7, as stated, fails: with 21 access points found the report is headed
`Found 20 networks:` and the number 21 occurs nowhere in it. -/
theorem perform_wifi_scan_total_counterexample :
    ¬ ∃ out, perform_wifi_scan (found (List.replicate 21 net_a)) (List.replicate 512 0) 512
          = .ok out
        ∧ out.ap_records.length = 20
        ∧ fmt_d 21 <:+: cstr out.result_buffer := by
  have e : (perform_wifi_scan (found (List.replicate 21 net_a)) (List.replicate 512 0) 512).map
      (fun o => cstr o.result_buffer)
      = .ok (bytes "Found 20 networks:\n" ++ record_lines 0 (List.replicate 9 net_a)) := by
    decide!
  have n : ¬ fmt_d 21 <:+:
      (bytes "Found 20 networks:\n" ++ record_lines 0 (List.replicate 9 net_a)) := by
    decide!
  rintro ⟨out, h, -, hc⟩
  rw [h] at e
  injection e with e
  have e1 : cstr out.result_buffer
      = bytes "Found 20 networks:\n" ++ record_lines 0 (List.replicate 9 net_a) := e
  rw [e1] at hc
  exact n hc

/-- C7, amended: when the radio reports K > 20 access points and holds them,
`perform_wifi_scan` retrieves exactly 20 records, the first 20, and the report
it leaves in a buffer of at least 20 bytes begins with the line
`Found 20 networks:`, which states the number of records retrieved and not K. -/
theorem perform_wifi_scan_reports_retrieved_count (d : ScanDriver) (result_buffer : List Nat)
    (buffer_size : Nat) (hlen : result_buffer.length = buffer_size) (h20 : 20 ≤ buffer_size)
    (hint : buffer_size < 2147483648) (hstart : d.esp_wifi_scan_start = ESP_OK)
    (hnum : d.esp_wifi_scan_get_ap_num = ESP_OK)
    (hrec : d.esp_wifi_scan_get_ap_records = ESP_OK) (hK : 20 < d.ap_count)
    (hK16 : d.ap_count < 65536) (hheld : d.records.length = d.ap_count) :
    ∃ out, perform_wifi_scan d result_buffer buffer_size = .ok out ∧ out.ret = ESP_OK
      ∧ out.ap_records = d.records.take 20 ∧ out.ap_records.length = 20
      ∧ out.result_buffer.take 19 = bytes "Found 20 networks:\n" := by
  have hmod : d.ap_count % 65536 = d.ap_count := Nat.mod_eq_of_lt hK16
  have hnum20 : (d.records.take 20).length = 20 := by
    rw [List.length_take]
    omega
  have hhdr : bytes "Found " ++ fmt_d ((20 : Nat) : Int) ++ bytes " networks:\n"
      = bytes "Found 20 networks:\n" := by decide
  have hs : (bytes "Found 20 networks:\n").length = 19 := by decide
  rw [perform_wifi_scan_main d result_buffer buffer_size hstart hnum (by omega) hrec, hmod,
    if_pos hK, hnum20, hhdr, int_of_size_t_of_lt _ hint,
    emit_at_start result_buffer _ buffer_size hlen hint (by omega) (by omega)]
  obtain ⟨c2, extra, e2, l2, -, -, t2⟩ := scan_loop_in_bounds buffer_size hint
    (d.records.take 20) 0
    { buf := bytes "Found 20 networks:\n"
        ++ 0 :: result_buffer.drop ((bytes "Found 20 networks:\n").length + 1),
      off := 0 + (bytes "Found 20 networks:\n").length,
      remaining := (buffer_size : Int) - ((bytes "Found 20 networks:\n").length : Nat),
      calls := [] ++ [(0, (buffer_size : Int))] }
    (by simp only [List.length_append, List.length_cons, List.length_drop]; omega)
    (by simp only; push_cast; omega)
  refine ⟨{ ret := ESP_OK, result_buffer := c2.buf, ap_records := d.records.take 20,
            calls := c2.calls }, ?_, rfl, rfl, hnum20, ?_⟩
  · show (scan_loop _ 0 _ >>= _) = _
    rw [e2]
    rfl
  · show c2.buf.take 19 = _
    rw [t2 19 (by simp only; omega), List.take_append_eq_append_take, hs]
    simp [hs]

theorem perform_wifi_scan_reports_retrieved_count_witness :
    ∃ out, perform_wifi_scan (found (List.replicate 21 net_a)) (List.replicate 512 0) 512
        = .ok out ∧ out.ret = ESP_OK
      ∧ out.ap_records = (found (List.replicate 21 net_a)).records.take 20
      ∧ out.ap_records.length = 20
      ∧ out.result_buffer.take 19 = bytes "Found 20 networks:\n" :=
  perform_wifi_scan_reports_retrieved_count (found (List.replicate 21 net_a))
    (List.replicate 512 0) 512 (by decide!) (by decide) (by decide) (by decide) (by decide)
    (by decide) (by decide) (by decide) (by decide)

/-- C9, as stated, fails: when `esp_wifi_init` fails, `init_wifi_for_scan`
does not return a non-OK code; `ESP_ERROR_CHECK` aborts. -/
theorem init_wifi_for_scan_counterexample :
    init_wifi_for_scan wifi_init_fails boot = .error .abort
      ∧ ¬ ∃ code st1, init_wifi_for_scan wifi_init_fails boot = .ok (code, st1)
          ∧ code ≠ ESP_OK := by
  have e : init_wifi_for_scan wifi_init_fails boot = .error .abort := by decide
  refine ⟨e, ?_⟩
  rintro ⟨code, st1, h, -⟩
  rw [e] at h
  cases h

/-- C9, amended: when `esp_wifi_init`, `esp_wifi_set_mode` or `esp_wifi_start`
fails, `init_wifi_for_scan` does not return: `ESP_ERROR_CHECK` aborts the
process, and with it the pass of `scanner_task`; whenever `init_wifi_for_scan`
does return, its return value is `ESP_OK`. -/
theorem init_wifi_for_scan_aborts_on_failure (d : InitDriver) (st : Radio)
    (hfail : d.esp_wifi_init ≠ ESP_OK ∨ d.esp_wifi_set_mode ≠ ESP_OK
      ∨ d.esp_wifi_start ≠ ESP_OK) :
    init_wifi_for_scan d st = .error .abort
      ∧ (∀ (sd : ScanDriver) (scan_results : List Nat),
          scanner_task_cycle d sd st scan_results = .error .abort)
      ∧ ∀ (d1 : InitDriver) (st1 : Radio) (code : Int) (st2 : Radio),
          init_wifi_for_scan d1 st1 = .ok (code, st2) → code = ESP_OK := by
  have habort : init_wifi_for_scan d st = .error .abort := by
    rcases init_wifi_for_scan_cases d st with h | ⟨h1, h2, h3, -⟩
    · exact h
    · rcases hfail with h | h | h
      · exact absurd h1 h
      · exact absurd h2 h
      · exact absurd h3 h
  refine ⟨habort, ?_, ?_⟩
  · intro sd scan_results
    unfold scanner_task_cycle
    rw [habort]
  · intro d1 st1 code st2 h
    rcases init_wifi_for_scan_cases d1 st1 with h1 | ⟨-, -, -, st3, h3⟩
    · rw [h1] at h
      cases h
    · rw [h3] at h
      injection h with h
      injection h with h _
      exact h.symm

theorem init_wifi_for_scan_aborts_on_failure_witness :
    init_wifi_for_scan wifi_init_fails boot = .error .abort
      ∧ (∀ (sd : ScanDriver) (scan_results : List Nat),
          scanner_task_cycle wifi_init_fails sd boot scan_results = .error .abort)
      ∧ ∀ (d1 : InitDriver) (st1 : Radio) (code : Int) (st2 : Radio),
          init_wifi_for_scan d1 st1 = .ok (code, st2) → code = ESP_OK :=
  init_wifi_for_scan_aborts_on_failure wifi_init_fails boot (Or.inl (by decide))

end Current

/-! ## Lemmas on C strings -/

theorem cstr_append_zero (l rest : List Nat) : cstr (l ++ 0 :: rest) = cstr l := by
  unfold cstr
  induction l with
  | nil => simp
  | cons a l ih =>
    by_cases ha : a = 0
    · simp [List.takeWhile_cons, ha]
    · simp [List.takeWhile_cons, ha, ih]

theorem cstr_self (t : List Nat) (ht : ∀ x ∈ t, x ≠ 0) : cstr t = t := by
  have h := cstr_append_nul t [] ht
  rw [cstr_append_zero] at h
  exact h

theorem cstr_split (l : List Nat) : l = cstr l ∨ ∃ r, l = cstr l ++ 0 :: r := by
  induction l with
  | nil => exact Or.inl rfl
  | cons a l ih =>
    by_cases ha : a = 0
    · right
      refine ⟨l, ?_⟩
      simp [cstr, List.takeWhile_cons, ha]
    · have e : cstr (a :: l) = a :: cstr l := by
        simp [cstr, List.takeWhile_cons, ha]
      rw [e]
      rcases ih with h | ⟨r, h⟩
      · left
        rw [← h]
      · right
        exact ⟨r, by rw [List.cons_append, ← h]⟩

theorem cstr_eq_iff (l t : List Nat) (ht : ∀ x ∈ t, x ≠ 0) :
    cstr l = t ↔ l = t ∨ ∃ r, l = t ++ 0 :: r := by
  constructor
  · intro h
    rcases cstr_split l with e | ⟨r, e⟩
    · left
      rw [h] at e
      exact e
    · right
      rw [h] at e
      exact ⟨r, e⟩
  · rintro (h | ⟨r, h⟩)
    · rw [h]
      exact cstr_self t ht
    · rw [h]
      exact cstr_append_nul t r ht

namespace Classic

theorem cmd_len_le (len : Nat) : cmd_len len ≤ 9 := by
  unfold cmd_len
  split <;> omega

theorem fill_cmd_ok (cmd data : List Nat) (n : Nat) (hcmd : cmd.length = 10) (hn : n ≤ 9)
    (hdata : n ≤ data.length) :
    ∃ rest, fill_cmd cmd n data = some (data.take n ++ 0 :: rest) := by
  have hl : (data.take n).length = n := by
    rw [List.length_take]
    omega
  have hs : store cmd 0 (data.take n) = data.take n ++ cmd.drop n := by
    simp [store, hl]
  obtain ⟨x, rest, hx⟩ : ∃ x rest, cmd.drop n = x :: rest := by
    cases h : cmd.drop n with
    | nil =>
      have := congrArg List.length h
      simp only [List.length_drop, List.length_nil] at this
      omega
    | cons x rest => exact ⟨x, rest, rfl⟩
  refine ⟨rest, ?_⟩
  unfold fill_cmd
  rw [if_pos (by omega), hs, hx]
  have e : (data.take n ++ x :: rest).set n 0 = data.take n ++ 0 :: rest := by
    rw [List.set_append_right _ _ (by omega), hl]
    simp
  rw [e]

theorem cmd_len_cases (len : Nat) :
    (len < 10 ∧ cmd_len len = len) ∨ (10 ≤ len ∧ cmd_len len = 9) := by
  unfold cmd_len
  split
  · left
    exact ⟨by assumption, rfl⟩
  · right
    exact ⟨by omega, rfl⟩

theorem take_scan_iff (data t : List Nat) (k : Nat) (ht : t.length = 4)
    (hk : (data.length < 10 ∧ k = data.length) ∨ (10 ≤ data.length ∧ k = 9)) :
    (data.take k = t ∨ ∃ r, data.take k = t ++ 0 :: r)
      ↔ (data = t ∨ ∃ r, data = t ++ 0 :: r) := by
  constructor
  · rintro (h | ⟨r, h⟩)
    · left
      have hl := congrArg List.length h
      rw [List.length_take, ht] at hl
      rcases hk with ⟨-, e⟩ | ⟨h10, e⟩
      · rw [e, List.take_length] at h
        exact h
      · omega
    · right
      refine ⟨r ++ data.drop k, ?_⟩
      have := List.take_append_drop k data
      rw [h] at this
      simpa using this.symm
  · rintro (h | ⟨r, h⟩)
    · left
      have hl : data.length = 4 := by rw [h, ht]
      have e : k = data.length := by omega
      rw [e, List.take_length, h]
    · right
      have hl : data.length = 5 + r.length := by
        rw [h]
        simp only [List.length_append, List.length_cons, ht]
        omega
      obtain ⟨j, rfl⟩ : ∃ j, k = j + 5 := ⟨k - 5, by omega⟩
      refine ⟨r.take j, ?_⟩
      rw [h, List.take_append_eq_append_take, List.take_of_length_le (by omega), ht]
      have : j + 5 - 4 = j + 1 := by omega
      rw [this, List.take_succ_cons]

/-- C11, as stated, fails: the five bytes `SCAN` and NUL, and the twelve bytes
`SCAN`, NUL, `garbage`, are recognised as a scan request although neither is
exactly the four bytes `SCAN`. -/
theorem spp_callback_scan_counterexample :
    (¬ ∃ requested,
        spp_callback idle junk_cmd (.ESP_SPP_DATA_IND_EVT 5 (bytes "SCAN" ++ [0]))
            = some (idle, requested)
          ∧ (requested = true ↔ bytes "SCAN" ++ [0] = bytes "SCAN"))
      ∧ ¬ ∃ requested,
        spp_callback idle junk_cmd
              (.ESP_SPP_DATA_IND_EVT 12 (bytes "SCAN" ++ 0 :: bytes "garbage"))
            = some (idle, requested)
          ∧ (requested = true ↔ bytes "SCAN" ++ 0 :: bytes "garbage" = bytes "SCAN") := by
  have e1 : spp_callback idle junk_cmd (.ESP_SPP_DATA_IND_EVT 5 (bytes "SCAN" ++ [0]))
      = some (idle, true) := by decide
  have n1 : bytes "SCAN" ++ [0] ≠ bytes "SCAN" := by decide
  have e2 : spp_callback idle junk_cmd
      (.ESP_SPP_DATA_IND_EVT 12 (bytes "SCAN" ++ 0 :: bytes "garbage")) = some (idle, true) := by
    decide
  have n2 : bytes "SCAN" ++ 0 :: bytes "garbage" ≠ bytes "SCAN" := by decide
  constructor
  · rintro ⟨requested, h, hiff⟩
    rw [e1] at h
    injection h with h
    injection h with _ h
    exact n1 (hiff.mp h.symm)
  · rintro ⟨requested, h, hiff⟩
    rw [e2] at h
    injection h with h
    injection h with _ h
    exact n2 (hiff.mp h.symm)

/-- C11, amended: for every inbound payload of length at least 1 delivered as
`ESP_SPP_DATA_IND_EVT`, `spp_callback` recognises a scan request if and only
if the payload is the four bytes `SCAN` or begins with `SCAN` followed by a
NUL byte; every other payload is ignored; the file-scope variables are left
as they were; and the copy into the 10-byte array `cmd` stays within it, at
most 9 payload bytes and the terminator. -/
theorem spp_callback_scan_command (st : State) (cmd : List Nat) (len : Nat) (data : List Nat)
    (hlen : 1 ≤ len) (hdata : data.length = len) (hcmd : cmd.length = 10) :
    ∃ requested, spp_callback st cmd (.ESP_SPP_DATA_IND_EVT len data) = some (st, requested)
      ∧ (requested = true
          ↔ (data = bytes "SCAN" ∨ ∃ rest, data = bytes "SCAN" ++ 0 :: rest))
      ∧ cmd_len len + 1 ≤ 10 := by
  have hcases := cmd_len_cases len
  obtain ⟨rest, hf⟩ := fill_cmd_ok cmd data (cmd_len len) hcmd (cmd_len_le len) (by omega)
  have hz : ∀ x ∈ bytes "SCAN", x ≠ 0 := by decide
  have h4 : (bytes "SCAN").length = 4 := by decide
  refine ⟨cstr (data.take (cmd_len len) ++ 0 :: rest) == bytes "SCAN", ?_, ?_, ?_⟩
  · simp only [spp_callback]
    rw [if_pos (by omega), hf]
  · rw [beq_iff_eq, cstr_append_zero, cstr_eq_iff _ _ hz]
    exact take_scan_iff data (bytes "SCAN") (cmd_len len) h4 (by rw [hdata]; exact hcases)
  · have := cmd_len_le len
    omega

theorem spp_callback_scan_command_witness :
    ∃ requested, spp_callback idle junk_cmd (.ESP_SPP_DATA_IND_EVT 4 (bytes "SCAN"))
        = some (idle, requested)
      ∧ (requested = true
          ↔ (bytes "SCAN" = bytes "SCAN" ∨ ∃ rest, bytes "SCAN" = bytes "SCAN" ++ 0 :: rest))
      ∧ cmd_len 4 + 1 ≤ 10 :=
  spp_callback_scan_command idle junk_cmd 4 (bytes "SCAN") (by decide) (by decide) (by decide)

end Classic

namespace Current

/-- C12: for every radio state, the second of two calls of `stop_all_radio`
in a row leaves the state the first call left and makes only the calls
`esp_wifi_stop` and `esp_wifi_deinit`, destroying no interface; after the
first call `sta_netif` is null; and `event_loop_initialized` is what it was
before the calls. -/
theorem stop_all_radio_idempotent (st : Radio) :
    stop_all_radio (stop_all_radio st).1
        = ((stop_all_radio st).1, [RadioCall.esp_wifi_stop, RadioCall.esp_wifi_deinit])
      ∧ (stop_all_radio st).1.sta_netif = none
      ∧ (stop_all_radio st).1.event_loop_initialized = st.event_loop_initialized
      ∧ (stop_all_radio (stop_all_radio st).1).1.event_loop_initialized
          = st.event_loop_initialized := by
  cases st with
  | mk e n =>
    cases n <;> simp [stop_all_radio]

end Current

end WifiScanner
